import Mathlib

/-!
Shallow embedding of the uproot TTree/branch serializer
(`src/uproot/write/objects/TTree.py`) and the TObjString key header
(`src/write/TObjString/key.py`).

Modelling conventions:
* Python `bytes` values are `List Nat`, each element a byte value.
* `struct.pack` of big-endian fixed-width fields is `packInt w n`
  (two's complement, `n % 2^(8*w)` written base-256 big-endian).
* Machine floats are modelled by their IEEE-754 bit patterns (`Nat`):
  the only float values in the source are the constants 1.0
  (`_fMarkerSize`, packed as a 4-byte `>f`, bits 0x3F800000) and 1.0
  (`_fWeight`, packed as an 8-byte `>d`, bits 0x3FF0000000000000);
  nothing in the program computes with them.
* A Python `dict` field bag is an association list `List (String × FVal)`;
  a missing key raises `KeyError`, modelled by `Except PyErr`.
* The writer cursor of uproot only tracks a write offset; the byte
  output of every `put_*` method is its return value, so cursor
  positions are dropped from the model (they never influence the
  returned bytes in this file's code).
* Fallible Python evaluation is sequenced with `Except` binds in the
  same left-to-right order in which Python evaluates the expressions.
-/

/-- Error taxonomy for the modelled Python exceptions. -/
inductive PyErr where
  | keyError (k : String)
  | indexError
  | typeError
  | notImplementedError
  | encodingError
  deriving DecidableEq

/-- Big-endian base-256 encoding of `n % 2^(8*w)` into exactly `w` bytes. -/
def natToBytesBE : Nat → Nat → List Nat
  | 0, _ => []
  | w + 1, n => natToBytesBE w (n / 256) ++ [n % 256]

/-- Big-endian read of a byte list. -/
def readBE (bs : List Nat) : Nat :=
  bs.foldl (fun a b => 256 * a + b) 0

/-- Two's complement big-endian packing of a signed integer into `w` bytes
(the behaviour of `struct.pack` with `>b/h/i/q` and their unsigned forms). -/
def packInt (w : Nat) (n : Int) : List Nat :=
  natToBytesBE w (n % ((2 : Int) ^ (8 * w))).toNat

/-- Little-endian variant (native byte order of numpy dtype `"int64"` on the
platforms this writer targets). -/
def packIntLE (w : Nat) (n : Int) : List Nat :=
  (packInt w n).reverse

/-- UTF-8 encoding of a single character. -/
def utf8Char (c : Char) : List Nat :=
  let n := c.toNat
  if n < 0x80 then [n]
  else if n < 0x800 then [0xC0 + n / 64, 0x80 + n % 64]
  else if n < 0x10000 then
    [0xE0 + n / 4096, 0x80 + n / 64 % 64, 0x80 + n % 64]
  else
    [0xF0 + n / 262144, 0x80 + n / 4096 % 64, 0x80 + n / 64 % 64, 0x80 + n % 64]

/-- UTF-8 encoding of a string, as Python's `str.encode("utf-8")`. -/
def strBytes (s : String) : List Nat :=
  s.data.flatMap utf8Char

/-- A Python string argument: either already `bytes` or a `str`. -/
inductive PyStr where
  | bytes (b : List Nat)
  | str (s : String)

/-- Modelled from the spec: `uproot.const.kByteCountMask`, the
"new-style count" high-bit marker set on every 4-byte byte count
(the constant lives in `uproot/const.py`, outside `src/`). -/
def kByteCountMask : Nat := 0x40000000

/-- The `[4-byte byte-count][2-byte version]` framing tail shared by every
`put_*` method: `length = len(buff) + 6`, `cnt = (length - 4) | kByteCountMask`,
output `pack(">IH", cnt, vers) + buff`. -/
def cntvers (vers : Nat) (buff : List Nat) : List Nat :=
  natToBytesBE 4 (Nat.lor (buff.length + 6 - 4) kByteCountMask) ++
    (natToBytesBE 2 vers ++ buff)

/-- Modelled from the spec: `Cursor.put_string` (the cursor class is outside
`src/`) — length-prefixed byte string, single-byte length for the short
case and the `0xFF`-escaped 4-byte length otherwise. -/
def put_string (s : List Nat) : List Nat :=
  if s.length < 255 then s.length :: s
  else 255 :: (natToBytesBE 4 s.length ++ s)

/-- Values stored in a Python field-bag dictionary of this program. -/
inductive FVal where
  | vint (n : Int)
  | vstr (s : List Nat)
  | vlist (l : List FVal)
  | varr (w : Nat) (be : Bool) (l : List Int)
  | vnone

/-- Dictionary lookup; a missing key raises `KeyError`. -/
def lookupBag : List (String × FVal) → String → Except PyErr FVal
  | [], k => .error (.keyError k)
  | (k', v) :: rest, k => if k = k' then .ok v else lookupBag rest k

/-- Dictionary update of an existing key (the assignments at
`TTree.py:270-272` replace list values by numpy arrays). -/
def bagSet : List (String × FVal) → String → FVal → List (String × FVal)
  | [], _, _ => []
  | (k', v) :: rest, k, w => if k = k' then (k', w) :: rest else (k', v) :: bagSet rest k w

/-- Using a bag value as a Python `int` (a non-int raises `TypeError`
when mixed into integer arithmetic or packed as an integer field). -/
def FVal.asInt : FVal → Except PyErr Int
  | .vint n => .ok n
  | _ => .error .typeError

/-- Using a bag value as a byte string. -/
def FVal.asStr : FVal → Except PyErr (List Nat)
  | .vstr s => .ok s
  | _ => .error .typeError

/-- Python indexing `v[i]` on a bag value. -/
def fvalIndex : FVal → Nat → Except PyErr FVal
  | .vlist l, i => match l.get? i with
    | some v => .ok v
    | none => .error .indexError
  | .vstr s, i => match s.get? i with
    | some c => .ok (.vstr [c])
    | none => .error .indexError
  | .varr _ _ l, i => match l.get? i with
    | some n => .ok (.vint n)
    | none => .error .indexError
  | _, _ => .error .typeError

/-- Python `len(v)` plus iteration over `v`, for sized values
(`TypeError` otherwise, as in `TTree.put_tobjarray` which has no
`try/except` guard). -/
def fvalElems : FVal → Except PyErr (List FVal)
  | .vlist l => .ok l
  | .vstr s => .ok (s.map fun c => .vstr [c])
  | .varr _ _ l => .ok (l.map .vint)
  | _ => .error .typeError

/-- The `try: len(values) ... except TypeError: values = [values]` guard of
`branch.put_tobjarray` (TTree.py:371-375): unsized values become a
singleton list. -/
def objarrayValues : FVal → List FVal
  | .vlist l => l
  | .vstr s => s.map fun c => .vstr [c]
  | .varr _ _ l => l.map .vint
  | v => [v]

/-- Modelled from the spec: `Cursor.put_data` / `Cursor.put_array`
(cursor class outside `src/`) — the raw element bytes of a numpy
array, with the array's dtype width and byte order, no length prefix. -/
def put_data : FVal → Except PyErr (List Nat)
  | .varr w be l => .ok ((l.map fun n => if be then packInt w n else packIntLE w n).flatten)
  | _ => .error .typeError

/-- Raw element bytes of a little-endian 8-byte integer array
(numpy dtype `"int64"` in native byte order, `TTree.py:172-173`). -/
def putArrayLE8 (l : List Int) : List Nat :=
  (l.map (packIntLE 8)).flatten

/-- Raw element bytes of a big-endian 8-byte array
(numpy dtypes `">i8"` / `">f8"`, `TTree.py:174-175`). -/
def putArrayBE8 (l : List Int) : List Nat :=
  (l.map (packInt 8)).flatten

/-- `str.encode` / identity on `bytes`: `TTree.fixstring` and
`branch.fixstring` (TTree.py:60-65, 283-288). -/
def fixstring : PyStr → List Nat
  | .bytes b => b
  | .str s => strBytes s

/-- Modelled from the spec: the "no object" marker `put_objany` writes for an
absent value (§4.3, a single null object reference; `uproot.write.util` is
outside `src/`), and the unsupported-kind `EncodingError` for present values
with no registered writer.  Branch objects are dispatched separately by
`put_objany_branch` below. -/
def put_objany_fval : FVal → Except PyErr (List Nat)
  | .vnone => .ok [0, 0, 0, 0]
  | _ => .error .encodingError

/-- The `for value in values: buff += put_objany(...)` loop of the two
`put_tobjarray` methods: emit each element in order, aborting at the
first raised exception. -/
def mapExcept {α : Type} (f : α → Except PyErr (List Nat)) :
    List α → Except PyErr (List (List Nat))
  | [] => .ok []
  | a :: as => do
    let x ← f a
    let xs ← mapExcept f as
    pure (x :: xs)

/-- The per-column branch entity (`class branch`, TTree.py:232). -/
structure branch where
  type : String
  name : List Nat
  title : List Nat
  defaultBasketSize : Int
  fields : List (String × FVal)

/-- `branch.__init__` (TTree.py:236-272).  `self.title` is set from the
`name` argument (line 239); the dictionary literal includes the corrupted
key of line 249 verbatim; the three basket arrays are numpy-converted in
place by lines 270-272 (dtypes `">i4"`, `">i8"`, `">i8"`). -/
def branch.init (type : String) (name title : PyStr)
    (defaultBasketSize : Int := 32000) : branch :=
  let fields0 : List (String × FVal) :=
    [("_fCompress", .vint 100),
     ("_fBasketSize", .vint defaultBasketSize),
     ("_fEntryOffsetLen", .vint 0),
     ("_fWriteBasket", .vint 0),
     ("_fEntry        self.put_tleaf(cursor)Number", .vint 0),
     ("_fOffset", .vint 0),
     ("_fMaxBaskets", .vint 10),
     ("_fSplitLevel", .vint 0),
     ("_fEntries", .vint 0),
     ("_fFirstEntry", .vint 0),
     ("_fTotBytes", .vint 0),
     ("_fZipBytes", .vint 0),
     ("_fBasketBytes", .vlist (List.replicate 10 (.vint 0))),
     ("_fBasketEntry", .vlist (List.replicate 10 (.vint 0))),
     ("_fBasketSeek", .vlist (List.replicate 10 (.vint 0))),
     ("_fFileName", .vstr []),
     ("_fBranches", .vlist []),
     ("_fLeaves", .vlist []),
     ("_fFillColor", .vint 0),
     ("_fFillStyle", .vint 1001),
     ("_fEntryNumber", .vint 0)]
  let fields1 :=
    if type = "int" then bagSet fields0 "_fLeaves" (.vlist [.vstr (strBytes "TLeafI")])
    else fields0
  let fields2 :=
    bagSet (bagSet (bagSet fields1
      "_fBasketBytes" (.varr 4 true (List.replicate 10 0)))
      "_fBasketEntry" (.varr 8 true (List.replicate 10 0)))
      "_fBasketSeek" (.varr 8 true (List.replicate 10 0))
  { type := type
    name := fixstring name
    title := fixstring name
    defaultBasketSize := defaultBasketSize
    fields := fields2 }

/-- `branch.extend` (TTree.py:277-278): unconditionally raises
`NotImplementedError`; the branch state is untouched. -/
def branch.extend (_b : branch) (_items : FVal) : Except PyErr branch :=
  .error .notImplementedError

/-- `branch.append` (TTree.py:274-275): delegates to `extend`. -/
def branch.append (b : branch) (item : FVal) : Except PyErr branch :=
  branch.extend b item

/-- `branch.basket` (TTree.py:280-281): raises `NotImplementedError`. -/
def branch.basket (_b : branch) (_items : FVal) : Except PyErr branch :=
  .error .notImplementedError

/-- `branch.put_tobject` (TTree.py:294-296): `pack(">HII", 1, 0, 0x03400000)`. -/
def branch.put_tobject : List Nat :=
  packInt 2 1 ++ packInt 4 0 ++ packInt 4 0x03400000

/-- `branch.put_tnamed` (TTree.py:298-306). -/
def branch.put_tnamed (name title : List Nat) : List Nat :=
  cntvers 1 (branch.put_tobject ++ put_string name ++ put_string title)

/-- `branch._skiptobj` (TTree.py:384-391):
`pack(">h", 1) + pack(">II", 0, fBits)`. -/
def branch.skiptobj (fBits : Int) : List Nat :=
  packInt 2 1 ++ (packInt 4 0 ++ packInt 4 fBits)

/-- `branch.put_tattfill` (TTree.py:308-318): frames
`pack(">hh", _fFillColor, _fFillStyle)` with version 2. -/
def branch.put_tattfill (b : branch) : Except PyErr (List Nat) := do
  let c ← (lookupBag b.fields "_fFillColor").bind FVal.asInt
  let s ← (lookupBag b.fields "_fFillStyle").bind FVal.asInt
  pure (cntvers 2 (packInt 2 c ++ packInt 2 s))

/-- `branch.put_rootiofeatures` (TTree.py:320-333): frames the magic bytes
`b"\x1a\xa1/\x10"` plus `pack(">B", 0)` with version 0. -/
def branch.put_rootiofeatures : List Nat :=
  cntvers 0 ([0x1a, 0xa1, 0x2f, 0x10] ++ packInt 1 0)

/-- `branch.put_tobjarray` (TTree.py:365-382); the `classname` hint is passed
through to the dispatcher (which resolves by the value's concrete kind). -/
def branch.put_tobjarray (values : FVal) (_classname : FVal) :
    Except PyErr (List Nat) := do
  let elems := objarrayValues values
  let parts ← mapExcept put_objany_fval elems
  let buff := branch.skiptobj 50331648 ++ put_string [] ++
    packInt 4 elems.length ++ packInt 4 0 ++ parts.flatten
  pure (cntvers 3 buff)

/-- The 25 raw bytes at TTree.py:419 (`b"@\x00\x00\x15\x00\x03\x00\x01..."`),
the pre-serialized empty-baskets object array. -/
def branch.basketsBlob : List Nat :=
  [0x40, 0, 0, 0x15, 0, 3, 0, 1, 0, 0, 0, 0, 3, 0, 0, 0, 0, 0, 0, 0, 0, 0, 0, 0, 0]

/-- Body of `branch.write` (TTree.py:399-430), the `buff` assembled before
framing.  Every bag access and index is sequenced in Python's left-to-right
evaluation order; the first failing access aborts the whole expression. -/
def branch.write_buff (b : branch) : Except PyErr (List Nat) := do
  let p1 := branch.put_tnamed b.name (b.title ++ strBytes "/I")
  let p2 ← branch.put_tattfill b
  let c1 ← (lookupBag b.fields "fCompress").bind FVal.asInt
  let c2 ← (lookupBag b.fields "fBasketSize").bind FVal.asInt
  let c3 ← (lookupBag b.fields "fEntryOffsetLen").bind FVal.asInt
  let c4 ← (lookupBag b.fields "fWriteBasket").bind FVal.asInt
  let c5 ← (lookupBag b.fields "fEntryNumber").bind FVal.asInt
  let p3 := packInt 4 c1 ++ packInt 4 c2 ++ packInt 4 c3 ++ packInt 4 c4 ++ packInt 8 c5
  let p4 := branch.put_rootiofeatures
  let d1 ← (lookupBag b.fields "fOffset").bind FVal.asInt
  let d2 ← (lookupBag b.fields "fMaxBaskets").bind FVal.asInt
  let d3 ← (lookupBag b.fields "fSplitLevel").bind FVal.asInt
  let d4 ← (lookupBag b.fields "fEntries").bind FVal.asInt
  let d5 ← (lookupBag b.fields "fFirstEntry").bind FVal.asInt
  let d6 ← (lookupBag b.fields "fTotBytes").bind FVal.asInt
  let d7 ← (lookupBag b.fields "fZipBytes").bind FVal.asInt
  let p5 := packInt 4 d1 ++ packInt 4 d2 ++ packInt 4 d3 ++ packInt 8 d4 ++
    packInt 8 d5 ++ packInt 8 d6 ++ packInt 8 d7
  let br ← lookupBag b.fields "_fBranches"
  let p6 ← branch.put_tobjarray br (.vstr (strBytes "TBranch"))
  let lv ← lookupBag b.fields "_fLeaves"
  let lv0 ← fvalIndex lv 0
  let lv1 ← fvalIndex lv 1
  let p7 ← branch.put_tobjarray lv0 lv1
  let bb ← lookupBag b.fields "fBasketBytes"
  let p8 ← put_data bb
  let be ← lookupBag b.fields "fBasketEntry"
  let p9 ← put_data be
  let bs ← lookupBag b.fields "fBasketSeek"
  let p10 ← put_data bs
  let fn ← (lookupBag b.fields "fFileName").bind FVal.asStr
  pure (p1 ++ p2 ++ p3 ++ p4 ++ p5 ++ p6 ++ p7 ++ branch.basketsBlob ++
    [0x01] ++ p8 ++ [0x01] ++ p9 ++ p10 ++ put_string fn ++ [0x00])

/-- `branch.write` (TTree.py:395-433): the assembled body framed with
version 13. -/
def branch.write (b : branch) : Except PyErr (List Nat) :=
  (branch.write_buff b).map (cntvers 13)

/-- Modelled from the spec: `put_objany` on a present value of branch kind
(§4.3) — a class-reference header for the concrete class `TBranch`
followed by the value's own framed record (`branch.write`).  The
class-name de-duplication via the key cursor is not modelled; only the
first-occurrence header form is used (no reachable call in this file
writes the same class twice before failing or finishing). -/
def put_objany_branch (b : branch) : Except PyErr (List Nat) :=
  (branch.write b).map fun recd =>
    natToBytesBE 4 0xFFFFFFFF ++ strBytes "TBranch" ++ [0] ++ recd

/-- The tree entity (`class TTree`, TTree.py:15-58).  The `fields`
dictionary of `TTree.__init__` uses only fixed keys that every access
spells identically, so it is modelled as a structure; defaults are the
dictionary literal of lines 23-58.  Float-valued entries hold their
IEEE-754 bit patterns (`_fMarkerSize = 1.0`, `_fWeight = 1.0`). -/
structure TTree where
  fClassName : List Nat := strBytes "TTree"
  fName : List Nat
  fTitle : List Nat
  branches : List branch
  _fLineColor : Int := 602
  _fLineStyle : Int := 1
  _fLineWidth : Int := 1
  _fFillColor : Int := 0
  _fFillStyle : Int := 1001
  _fMarkerColor : Int := 1
  _fMarkerStyle : Int := 1
  _fMarkerSize : Nat := 0x3F800000
  _fEntries : Int := 0
  _fTotBytes : Int := 0
  _fZipBytes : Int := 0
  _fSavedBytes : Int := 0
  _fFlushedBytes : Int := 0
  _fWeight : Nat := 0x3FF0000000000000
  _fTimerInterval : Int := 0
  _fScanField : Int := 25
  _fUpdate : Int := 0
  _fDefaultEntryOffsetLen : Int := 1000
  _fNClusterRange : Int := 0
  _fMaxEntries : Int := 1000000000000
  _fMaxEntryLoop : Int := 1000000000000
  _fMaxVirtualSize : Int := 0
  _fAutoSave : Int := -300000000
  _fAutoFlush : Int := -30000000
  _fEstimate : Int := 1000000
  _fClusterRangeEnd : List Int := []
  _fClusterSize : List Int := []
  _fBranches : List branch := []
  _fFriends : FVal := .vnone
  _fTreeIndex : FVal := .vnone
  _fIndex : List Int := []
  _fIndexValues : List Int := []
  _fAliases : FVal := .vnone
  _fLeaves : List FVal := []
  _fUserInfo : FVal := .vnone
  _fBranchRef : FVal := .vnone

/-- `TTree.__init__` (TTree.py:17-58). -/
def TTree.init (name title : PyStr) (branches : List branch) : TTree :=
  { fName := fixstring name
    fTitle := fixstring title
    branches := branches }

/-- `TTree.put_tobject` (TTree.py:69-71): `pack(">HII", 1, 0, 0x03000000)`. -/
def TTree.put_tobject : List Nat :=
  packInt 2 1 ++ packInt 4 0 ++ packInt 4 0x03000000

/-- `TTree.put_tnamed` (TTree.py:73-81). -/
def TTree.put_tnamed (name title : List Nat) : List Nat :=
  cntvers 1 (TTree.put_tobject ++ put_string name ++ put_string title)

/-- `TTree.put_tattline` (TTree.py:83-94): frames
`pack(">hhh", _fLineColor, _fLineStyle, _fLineWidth)` with version 2. -/
def TTree.put_tattline (t : TTree) : List Nat :=
  cntvers 2 (packInt 2 t._fLineColor ++ packInt 2 t._fLineStyle ++
    packInt 2 t._fLineWidth)

/-- `TTree.put_tattfill` (TTree.py:96-106). -/
def TTree.put_tattfill (t : TTree) : List Nat :=
  cntvers 2 (packInt 2 t._fFillColor ++ packInt 2 t._fFillStyle)

/-- `TTree.put_tattmarker` (TTree.py:108-119):
`pack(">hhf", _fMarkerColor, _fMarkerStyle, _fMarkerSize)`, version 2. -/
def TTree.put_tattmarker (t : TTree) : List Nat :=
  cntvers 2 (packInt 2 t._fMarkerColor ++ packInt 2 t._fMarkerStyle ++
    natToBytesBE 4 t._fMarkerSize)

/-- `TTree.put_rootiofeatures` (TTree.py:121-131). -/
def TTree.put_rootiofeatures : List Nat :=
  cntvers 0 ([0x1a, 0xa1, 0x2f, 0x10] ++ packInt 1 0)

/-- `TTree._skiptobj` (TTree.py:148-155). -/
def TTree.skiptobj (fBits : Int) : List Nat :=
  packInt 2 1 ++ (packInt 4 0 ++ packInt 4 fBits)

/-- `TTree.put_tobjarray` (TTree.py:133-146), with the polymorphic
per-element dispatch (`util.put_objany`) passed as `putElem` (the values
are Python lists here; there is no `try/except` size guard). -/
def TTree.put_tobjarray {α : Type} (putElem : α → Except PyErr (List Nat))
    (values : List α) : Except PyErr (List Nat) := do
  let parts ← mapExcept putElem values
  let buff := TTree.skiptobj 50331648 ++ put_string [] ++
    packInt 4 values.length ++ packInt 4 0 ++ parts.flatten
  pure (cntvers 3 buff)

/-- `TTree.put_tarray` (TTree.py:157-159): `pack(">i", size)` followed by the
raw big-endian 8-byte elements (both call sites pass `">f8"` / `">i8"`
arrays). -/
def TTree.put_tarray (l : List Int) : List Nat :=
  packInt 4 l.length ++ putArrayBE8 l

/-- One iteration of the accumulation loop of `TTree.write`
(TTree.py:177-185), statement by statement: the `+=` updates of
`_fEntries` / `_fTotBytes` / `_fZipBytes`, then the `_fLeaves` and
`_fBranches` appends.  An exception leaves the updates of the
statements already executed in place, as Python's in-place dictionary
mutation does. -/
def TTree.loopStep (t : TTree) (b : branch) : TTree × Option PyErr :=
  match (lookupBag b.fields "_fEntries").bind FVal.asInt with
  | .error e => (t, some e)
  | .ok n1 =>
    let t1 := { t with _fEntries := t._fEntries + n1 }
    match (lookupBag b.fields "_fTotBytes").bind FVal.asInt with
    | .error e => (t1, some e)
    | .ok n2 =>
      let t2 := { t1 with _fTotBytes := t1._fTotBytes + n2 }
      match (lookupBag b.fields "_fZipBytes").bind FVal.asInt with
      | .error e => (t2, some e)
      | .ok n3 =>
        let t3 := { t2 with _fZipBytes := t2._fZipBytes + n3 }
        match lookupBag b.fields "_fLeaves" with
        | .error e => (t3, some e)
        | .ok lv =>
          ({ t3 with _fLeaves := t3._fLeaves ++ [lv],
                     _fBranches := t3._fBranches ++ [b] }, none)

/-- The accumulation loop of `TTree.write` over `self.branches`
(TTree.py:177-185). -/
def TTree.loop (t : TTree) : List branch → TTree × Option PyErr
  | [] => (t, none)
  | b :: bs =>
    match TTree.loopStep t b with
    | (t', some e) => (t', some e)
    | (t', none) => TTree.loop t' bs

/-- Body of `TTree.write` (TTree.py:187-226), the `buff` assembled after the
accumulation loop, in source order.  The numpy conversions of
TTree.py:172-175 only change the array representation (dtypes
`"int64"`, `"int64"`, `">f8"`, `">i8"`), not the element values; the
chosen byte orders appear in the `putArray` calls below. -/
def TTree.write_buff (t : TTree) (name : List Nat) : Except PyErr (List Nat) := do
  let a1 := TTree.put_tnamed name t.fTitle
  let a2 := TTree.put_tattline t
  let a3 := TTree.put_tattfill t
  let a4 := TTree.put_tattmarker t
  let a5 := packInt 8 t._fEntries ++ packInt 8 t._fTotBytes ++
    packInt 8 t._fZipBytes ++ packInt 8 t._fSavedBytes ++
    packInt 8 t._fFlushedBytes ++ natToBytesBE 8 t._fWeight ++
    packInt 4 t._fTimerInterval ++ packInt 4 t._fScanField ++
    packInt 4 t._fUpdate ++ packInt 4 t._fDefaultEntryOffsetLen ++
    packInt 4 t._fNClusterRange ++ packInt 8 t._fMaxEntries ++
    packInt 8 t._fMaxEntryLoop ++ packInt 8 t._fMaxVirtualSize ++
    packInt 8 t._fAutoSave ++ packInt 8 t._fAutoFlush ++
    packInt 8 t._fEstimate
  let a6 := putArrayLE8 t._fClusterRangeEnd ++ [0x00]
  let a7 := putArrayLE8 t._fClusterSize ++ [0x00]
  let a8 := TTree.put_rootiofeatures
  let a9 ← TTree.put_tobjarray put_objany_branch t._fBranches
  let a10 ←
    if t._fBranches.isEmpty then
      TTree.put_tobjarray put_objany_fval t._fLeaves
    else do
      let lv0 ← match t._fLeaves.get? 0 with
        | some v => Except.ok v
        | none => Except.error PyErr.indexError
      let v00 ← fvalIndex lv0 0
      let _v01 ← fvalIndex lv0 1
      let es ← fvalElems v00
      TTree.put_tobjarray put_objany_fval es
  let a11 ← put_objany_fval t._fAliases
  let a12 := TTree.put_tarray t._fIndexValues
  let a13 := TTree.put_tarray t._fIndex
  let a14 ← put_objany_fval t._fTreeIndex
  let a15 ← put_objany_fval t._fFriends
  let a16 ← put_objany_fval t._fUserInfo
  let a17 ← put_objany_fval t._fBranchRef
  pure (a1 ++ a2 ++ a3 ++ a4 ++ a5 ++ a6 ++ a7 ++ a8 ++ a9 ++ a10 ++
    a11 ++ a12 ++ a13 ++ a14 ++ a15 ++ a16 ++ a17)

/-- `TTree.write` (TTree.py:163-230): run the accumulation loop (its
dictionary mutations persist even when serialization later raises),
assemble the body, frame it with version 20, and return the bytes that
are handed to `uproot.write.compress.write`.  The first component is
the tree state after the call. -/
def TTree.write (t0 : TTree) (name : List Nat) :
    TTree × Except PyErr (List Nat) :=
  ((TTree.loop t0 t0.branches).1,
   match (TTree.loop t0 t0.branches).2 with
   | some e => .error e
   | none => (TTree.write_buff (TTree.loop t0 t0.branches).1 name).map (cntvers 20))

/-- The TObjString key header (`class Key`, key.py:1-16). -/
structure Key where
  string : List Nat
  fVersion : Int
  fObjlen : Int
  fDatime : Int
  fKeylen : Int
  fNbytes : Int
  fCycle : Int
  fSeekKey : Int
  fSeekPdir : Int
  packer : String
  fClassName : List Nat
  fName : List Nat
  fTitle : List Nat

/-- `Key.__init__` (key.py:3-16). -/
def Key.init (string : List Nat) (stringloc : Int) : Key :=
  { string := string
    fVersion := 4
    fObjlen := 17 + string.length
    fDatime := 1573188772
    fKeylen := 0
    fNbytes := (17 + (string.length : Int)) + 0
    fCycle := 1
    fSeekKey := stringloc
    fSeekPdir := 100
    packer := ">ihiIhhii"
    fClassName := strBytes "TObjString"
    fName := string
    fTitle := strBytes "Collectable string class" }

/-- `Key.values` (key.py:18-19): the tuple of the packer format and the
fields, in source order. -/
def Key.values (k : Key) :
    String × Int × Int × Int × Int × Int × Int × Int × Int ×
      List Nat × List Nat × List Nat :=
  (k.packer, k.fNbytes, k.fVersion, k.fObjlen, k.fDatime, k.fKeylen,
   k.fCycle, k.fSeekKey, k.fSeekPdir, k.fClassName, k.fName, k.fTitle)

theorem natToBytesBE_length (w n : Nat) : (natToBytesBE w n).length = w := by
  induction w generalizing n with
  | zero => rfl
  | succ w ih => simp [natToBytesBE, ih]

theorem readBE_append (l : List Nat) (b : Nat) :
    readBE (l ++ [b]) = 256 * readBE l + b := by
  simp [readBE, List.foldl_append]

theorem readBE_natToBytesBE (w n : Nat) :
    readBE (natToBytesBE w n) = n % 2 ^ (8 * w) := by
  induction w generalizing n with
  | zero => simp [natToBytesBE, readBE, Nat.mod_one]
  | succ w ih =>
    rw [natToBytesBE, readBE_append, ih]
    calc 256 * (n / 256 % 2 ^ (8 * w)) + n % 256
        = n % 256 + 256 * (n / 256 % 2 ^ (8 * w)) := by ring
      _ = n % (256 * 2 ^ (8 * w)) := Nat.mod_mul.symm
      _ = n % 2 ^ (8 * (w + 1)) := by
          rw [show 8 * (w + 1) = 8 * w + 8 by ring, pow_add]
          norm_num [Nat.mul_comm]

theorem kByteCountMask_eq : kByteCountMask = 2 ^ 30 := by norm_num [kByteCountMask]

theorem lor_eq_hor (a b : Nat) : Nat.lor a b = a ||| b := rfl

theorem lor_two_pow_mod (x n : Nat) : (x ||| 2 ^ n) % 2 ^ n = x % 2 ^ n := by
  apply Nat.eq_of_testBit_eq
  intro i
  simp only [Nat.testBit_mod_two_pow, Nat.testBit_or, Nat.testBit_two_pow]
  by_cases h : i < n
  · have : ¬ n = i := by omega
    simp [h, this]
  · simp [h]

theorem cntvers_take4 (v : Nat) (B : List Nat) :
    (cntvers v B).take 4 =
      natToBytesBE 4 (Nat.lor (B.length + 6 - 4) kByteCountMask) := by
  rw [cntvers]
  exact List.take_left' (natToBytesBE_length 4 _)

theorem cntvers_drop4 (v : Nat) (B : List Nat) :
    (cntvers v B).drop 4 = natToBytesBE 2 v ++ B := by
  rw [cntvers]
  exact List.drop_left' (natToBytesBE_length 4 _)

theorem cntvers_vers (v : Nat) (B : List Nat) :
    ((cntvers v B).drop 4).take 2 = natToBytesBE 2 v := by
  rw [cntvers_drop4]
  exact List.take_left' (natToBytesBE_length 2 v)

theorem cntvers_drop6 (v : Nat) (B : List Nat) : (cntvers v B).drop 6 = B := by
  rw [cntvers, ← List.append_assoc]
  refine List.drop_left' ?_
  simp [natToBytesBE_length]

theorem cnt_lt (B : List Nat) (h : B.length + 2 < 2 ^ 30) :
    Nat.lor (B.length + 6 - 4) kByteCountMask < 2 ^ 32 := by
  rw [kByteCountMask_eq, lor_eq_hor]
  have h1 : B.length + 6 - 4 < 2 ^ 31 := by omega
  have h2 : (2 : Nat) ^ 30 < 2 ^ 31 := by norm_num
  have := Nat.or_lt_two_pow h1 h2
  omega

theorem readBE_cnt (B : List Nat) (h : B.length + 2 < 2 ^ 30) :
    readBE ((cntvers v B).take 4) = Nat.lor (B.length + 6 - 4) kByteCountMask := by
  rw [cntvers_take4, readBE_natToBytesBE]
  exact Nat.mod_eq_of_lt (by simpa using cnt_lt B h)

/-- C1: for every framed record emitted by the serializer (named-object
header, attribute blocks, object arrays, the branch record, and the
outer tree record), the 4-byte count in the header equals
`len(body) + 6 - 4 = len(body) + 2` with the high "new-style count" bit
(`kByteCountMask`) set, so the count covers exactly everything after
the count field itself, and the 2-byte version follows the count.  The
first conjunct states this for the shared framing tail `cntvers`; the
remaining conjuncts show each emitter produces exactly such a frame
(`put_tnamed` with version 1, the attribute blocks with version 2,
object arrays with version 3, the branch record with version 13, the
outer tree record with version 20). -/
theorem C1_frame_byte_count :
    (∀ (v : Nat) (B : List Nat), v < 2 ^ 16 → B.length + 2 < 2 ^ 30 →
      readBE ((cntvers v B).take 4) = Nat.lor (B.length + 6 - 4) kByteCountMask ∧
      Nat.testBit (readBE ((cntvers v B).take 4)) 30 = true ∧
      readBE ((cntvers v B).take 4) % 2 ^ 30 = ((cntvers v B).drop 4).length ∧
      ((cntvers v B).drop 4).length = B.length + 2 ∧
      readBE (((cntvers v B).drop 4).take 2) = v ∧
      (cntvers v B).drop 6 = B) ∧
    (∀ name title : List Nat, TTree.put_tnamed name title =
      cntvers 1 (TTree.put_tobject ++ put_string name ++ put_string title)) ∧
    (∀ name title : List Nat, branch.put_tnamed name title =
      cntvers 1 (branch.put_tobject ++ put_string name ++ put_string title)) ∧
    (∀ t : TTree, TTree.put_tattline t =
      cntvers 2 (packInt 2 t._fLineColor ++ packInt 2 t._fLineStyle ++
        packInt 2 t._fLineWidth)) ∧
    (∀ t : TTree, TTree.put_tattfill t =
      cntvers 2 (packInt 2 t._fFillColor ++ packInt 2 t._fFillStyle)) ∧
    (∀ t : TTree, TTree.put_tattmarker t =
      cntvers 2 (packInt 2 t._fMarkerColor ++ packInt 2 t._fMarkerStyle ++
        natToBytesBE 4 t._fMarkerSize)) ∧
    (∀ (α : Type) (pe : α → Except PyErr (List Nat)) (vals : List α),
      TTree.put_tobjarray pe vals = (mapExcept pe vals).map fun parts =>
        cntvers 3 (TTree.skiptobj 50331648 ++ put_string [] ++
          packInt 4 vals.length ++ packInt 4 0 ++ parts.flatten)) ∧
    (∀ values classname : FVal, branch.put_tobjarray values classname =
      (mapExcept put_objany_fval (objarrayValues values)).map fun parts =>
        cntvers 3 (branch.skiptobj 50331648 ++ put_string [] ++
          packInt 4 (objarrayValues values).length ++ packInt 4 0 ++
          parts.flatten)) ∧
    (∀ b : branch, branch.write b = (branch.write_buff b).map (cntvers 13)) ∧
    (∀ (t : TTree) (nm : List Nat), (TTree.write t nm).2 =
      match (TTree.loop t t.branches).2 with
      | some e => .error e
      | none => (TTree.write_buff (TTree.loop t t.branches).1 nm).map (cntvers 20)) := by
  refine ⟨?_, fun _ _ => rfl, fun _ _ => rfl, fun _ => rfl, fun _ => rfl,
    fun _ => rfl, ?_, ?_, fun _ => rfl, fun _ _ => rfl⟩
  · intro v B hv hB
    have hc := @readBE_cnt v B hB
    refine ⟨hc, ?_, ?_, ?_, ?_, cntvers_drop6 v B⟩
    · rw [hc, kByteCountMask_eq, lor_eq_hor, Nat.testBit_or]
      have h30 : Nat.testBit (2 ^ 30) 30 = true := Nat.testBit_two_pow_self
      rw [h30, Bool.or_true]
    · rw [hc, kByteCountMask_eq, lor_eq_hor, lor_two_pow_mod, cntvers_drop4]
      simp [natToBytesBE_length]
      omega
    · rw [cntvers_drop4]
      simp [natToBytesBE_length]
      omega
    · rw [cntvers_vers, readBE_natToBytesBE]
      exact Nat.mod_eq_of_lt (by norm_num; omega)
  · intro α pe vals
    cases h : mapExcept pe vals with
    | error e => simp [TTree.put_tobjarray, h, Except.map]
    | ok parts => simp [TTree.put_tobjarray, h, Except.map]
  · intro values classname
    cases h : mapExcept put_objany_fval (objarrayValues values) with
    | error e => simp [branch.put_tobjarray, h, Except.map]
    | ok parts => simp [branch.put_tobjarray, h, Except.map]

/-- Witness for C1: the framing invariant instantiated at version 1 and the
two-byte body `[65, 66]`. -/
theorem C1_frame_byte_count_witness :
    readBE ((cntvers 1 [65, 66]).take 4) =
      Nat.lor ([65, 66].length + 6 - 4) kByteCountMask ∧
    Nat.testBit (readBE ((cntvers 1 [65, 66]).take 4)) 30 = true ∧
    readBE ((cntvers 1 [65, 66]).take 4) % 2 ^ 30 =
      ((cntvers 1 [65, 66]).drop 4).length ∧
    ((cntvers 1 [65, 66]).drop 4).length = [65, 66].length + 2 ∧
    readBE (((cntvers 1 [65, 66]).drop 4).take 2) = 1 ∧
    (cntvers 1 [65, 66]).drop 6 = [65, 66] :=
  C1_frame_byte_count.1 1 [65, 66] (by norm_num) (by norm_num)

/-- C5: the frame version numbers are fixed protocol constants per record
kind, not computed from the data: every tree record frame carries
version 20, every branch record frame version 13, and every
line/fill/marker attribute block frame version 2, for all inputs (the
version is the 2-byte field at offsets 4-5 of the frame).  The final
conjunct grounds the tree case: a concrete tree write does produce a
frame. -/
theorem C5_version_constants :
    (∀ t : TTree, ((TTree.put_tattline t).drop 4).take 2 = natToBytesBE 2 2) ∧
    (∀ t : TTree, ((TTree.put_tattfill t).drop 4).take 2 = natToBytesBE 2 2) ∧
    (∀ t : TTree, ((TTree.put_tattmarker t).drop 4).take 2 = natToBytesBE 2 2) ∧
    (∀ b : branch, (branch.write b).map (fun out => (out.drop 4).take 2) =
      (branch.write b).map fun _ => natToBytesBE 2 13) ∧
    (∀ (t : TTree) (nm : List Nat),
      ((TTree.write t nm).2).map (fun out => (out.drop 4).take 2) =
        ((TTree.write t nm).2).map fun _ => natToBytesBE 2 20) ∧
    ((TTree.write (TTree.init (.str "t") (.str "u") []) (strBytes "t")).2).isOk
      = true := by
  refine ⟨fun t => cntvers_vers 2 _, fun t => cntvers_vers 2 _,
    fun t => cntvers_vers 2 _, ?_, ?_, rfl⟩
  · intro b
    cases h : branch.write_buff b with
    | error e => simp [branch.write, h, Except.map]
    | ok B => simp [branch.write, h, Except.map, cntvers_vers]
  · intro t nm
    cases hl : (TTree.loop t t.branches).2 with
    | some e => simp [TTree.write, hl, Except.map]
    | none =>
      cases hb : TTree.write_buff (TTree.loop t t.branches).1 nm with
      | error e => simp [TTree.write, hl, hb, Except.map]
      | ok B => simp [TTree.write, hl, hb, Except.map, cntvers_vers]

/-- C2: the spec's end-to-end example — a tree named `"t"` with one integer
branch `"x"` and zero entries — does not serialize at all: `TTree.write`
raises `KeyError` on `"fCompress"` while serializing the branch (the
branch field bag stores only underscore-prefixed keys), so no byte
sequence is handed to the compression collaborator. -/
theorem C2_end_to_end_raises :
    (TTree.write
      (TTree.init (.str "t") (.str "t") [branch.init "int" (.str "x") (.str "x")])
      (strBytes "t")).2 = .error (.keyError "fCompress") := rfl

/-- C3: `branch.write` does not read the branch-layout fields from the
branch's own stored field bag: the bag created by `branch.__init__`
stores `"_fCompress"` (underscore-prefixed, value 100), while `write`
looks up `"fCompress"` and raises `KeyError` on its first layout-field
access. -/
theorem C3_write_field_bag_mismatch :
    branch.write (branch.init "int" (.str "x") (.str "x")) =
      .error (.keyError "fCompress") ∧
    lookupBag (branch.init "int" (.str "x") (.str "x")).fields "_fCompress" =
      .ok (.vint 100) := ⟨rfl, rfl⟩

/-- C6: `branch.write` raises for a branch *with* a leaf (an integer branch,
whose `_fLeaves` is `["TLeafI"]`) exactly as it does for a branch with
an empty leaf list: both fail with `KeyError` on `"fCompress"` before
the leaf list is ever consulted, so the failure is not confined to the
no-leaf case. -/
theorem C6_write_raises_regardless_of_leaves :
    branch.write (branch.init "float" (.str "y") (.str "y")) =
      .error (.keyError "fCompress") ∧
    lookupBag (branch.init "float" (.str "y") (.str "y")).fields "_fLeaves" =
      .ok (.vlist []) ∧
    branch.write (branch.init "int" (.str "x2") (.str "x2")) =
      .error (.keyError "fCompress") ∧
    lookupBag (branch.init "int" (.str "x2") (.str "x2")).fields "_fLeaves" =
      .ok (.vlist [.vstr (strBytes "TLeafI")]) := ⟨rfl, rfl, rfl, rfl⟩

/-- C7 counterexample: appending one basket item to a freshly constructed
integer branch does not succeed (so it neither increments the entry and
basket counters nor fills an array slot, and no capacity boundary is
ever reached). -/
theorem C7_counterexample :
    ¬ ∃ b' : branch,
      branch.append (branch.init "int" (.str "x") (.str "x")) (.vint 1) =
        Except.ok b' := by
  rintro ⟨b', hb⟩
  rw [show branch.append (branch.init "int" (.str "x") (.str "x")) (.vint 1) =
    Except.error .notImplementedError from rfl] at hb
  exact Except.noConfusion hb

/-- C7 (amended): `branch.append` delegates to `branch.extend`, which is an
unimplemented stub: for every branch state and every item it raises
`NotImplementedError` (as does `branch.basket`), returning no new
state, so no counter or bookkeeping slot is ever modified and the
basket-capacity boundary is unreachable. -/
theorem C7_append_raises (b : branch) (item : FVal) :
    branch.append b item = .error .notImplementedError ∧
    branch.extend b item = .error .notImplementedError ∧
    branch.basket b item = .error .notImplementedError := ⟨rfl, rfl, rfl⟩

/-- C10 counterexample: `branch.write` on an integer branch constructed with
title `"TITLE"` emits nothing at all (it raises before returning any
bytes), so in particular it does not emit a named-object header. -/
theorem C10_counterexample :
    ¬ ∃ out, branch.write (branch.init "int" (.str "x") (.str "TITLE")) =
      Except.ok out := by
  rintro ⟨out, h⟩
  rw [show branch.write (branch.init "int" (.str "x") (.str "TITLE")) =
    Except.error (.keyError "fCompress") from rfl] at h
  exact Except.noConfusion h

/-- C10 (amended): the stored title of every constructed branch equals the
encoded `name` argument — the `title` argument is ignored, so the
constructed branch, and with it everything `branch.write` computes, is
independent of the caller's title; the named-object header frame that
`write` builds (its first component, before it fails on the field-bag
`KeyError`) carries `name ++ "/I"` in the title position. -/
theorem C10_title_is_name (type : String) (name t1 t2 : PyStr) (dbs : Int) :
    (branch.init type name t1 dbs).title = fixstring name ∧
    branch.init type name t1 dbs = branch.init type name t2 dbs ∧
    branch.write (branch.init type name t1 dbs) =
      branch.write (branch.init type name t2 dbs) ∧
    branch.put_tnamed (branch.init type name t1 dbs).name
        ((branch.init type name t1 dbs).title ++ strBytes "/I") =
      cntvers 1 (branch.put_tobject ++ put_string (fixstring name) ++
        put_string (fixstring name ++ strBytes "/I")) := ⟨rfl, rfl, rfl, rfl⟩

/-- C9: `Key.values` is a stateless projection of the fields fixed at
construction: for every `(string, stringloc)` it returns the packer
format together with `fNbytes`, `fVersion`, `fObjlen`, `fDatime`,
`fKeylen`, `fCycle`, `fSeekKey` (equal to `stringloc`), `fSeekPdir`,
the class name, the name (equal to `string`) and the title; it is a
pure function of the key value (so it mutates nothing and two
successive calls return equal tuples). -/
theorem C9_key_values (s : List Nat) (loc : Int) :
    Key.values (Key.init s loc) =
      (">ihiIhhii", 17 + (s.length : Int), 4, 17 + (s.length : Int),
        1573188772, 0, 1, loc, 100, strBytes "TObjString", s,
        strBytes "Collectable string class") ∧
    (Key.init s loc).fSeekKey = loc ∧
    (Key.init s loc).fName = s ∧
    (Key.init s loc).fNbytes =
      (Key.init s loc).fObjlen + (Key.init s loc).fKeylen ∧
    Key.values (Key.init s loc) = Key.values (Key.init s loc) := by
  refine ⟨?_, rfl, rfl, rfl, rfl⟩
  simp [Key.init, Key.values]

/-- C8: in every constructed branch the three basket bookkeeping arrays
(`_fBasketBytes`, `_fBasketEntry`, `_fBasketSeek`) are parallel arrays of
exactly 10 elements, every slot zero; and no operation ever produces a
modified branch state (`append`/`extend`/`basket` never return a state,
and `branch.write` returns bytes only), so the property set up by
`branch.__init__` is preserved up to and including `write`. -/
theorem C8_basket_arrays (type : String) (name title : PyStr) (dbs : Int) :
    lookupBag (branch.init type name title dbs).fields "_fBasketBytes" =
      .ok (.varr 4 true (List.replicate 10 0)) ∧
    lookupBag (branch.init type name title dbs).fields "_fBasketEntry" =
      .ok (.varr 8 true (List.replicate 10 0)) ∧
    lookupBag (branch.init type name title dbs).fields "_fBasketSeek" =
      .ok (.varr 8 true (List.replicate 10 0)) ∧
    (∀ (b : branch) (item : FVal), (branch.append b item).isOk = false) ∧
    (∀ (b : branch) (items : FVal), (branch.extend b items).isOk = false) ∧
    (∀ (b : branch) (items : FVal), (branch.basket b items).isOk = false) := by
  refine ⟨?_, ?_, ?_, fun _ _ => rfl, fun _ _ => rfl, fun _ _ => rfl⟩ <;>
    by_cases ht : type = "int" <;>
      simp [branch.init, ht, bagSet, lookupBag]

/-- Bag lookup yielding an integer, as a Boolean test. -/
def isIntBag (bag : List (String × FVal)) (k : String) : Bool :=
  match lookupBag bag k with
  | .ok (.vint _) => true
  | _ => false

/-- The integer stored in a bag under a key (0 when the key is absent or
non-integer; only consulted under an `isIntBag` hypothesis). -/
def bagIntD (bag : List (String × FVal)) (k : String) : Int :=
  match lookupBag bag k with
  | .ok (.vint n) => n
  | _ => 0

theorem isIntBag_lookup {bag : List (String × FVal)} {k : String}
    (h : isIntBag bag k = true) :
    lookupBag bag k = .ok (.vint (bagIntD bag k)) := by
  unfold isIntBag at h
  unfold bagIntD
  cases hl : lookupBag bag k with
  | error e => simp [hl] at h
  | ok v => cases v <;> simp [hl] at h ⊢

theorem TTree.loop_totals (bs : List branch) :
    ∀ t : TTree,
    (∀ b ∈ bs,
      isIntBag b.fields "_fEntries" = true ∧
      isIntBag b.fields "_fTotBytes" = true ∧
      isIntBag b.fields "_fZipBytes" = true ∧
      (lookupBag b.fields "_fLeaves").isOk = true) →
    (TTree.loop t bs).1._fEntries =
      t._fEntries + (bs.map fun b => bagIntD b.fields "_fEntries").sum ∧
    (TTree.loop t bs).1._fTotBytes =
      t._fTotBytes + (bs.map fun b => bagIntD b.fields "_fTotBytes").sum ∧
    (TTree.loop t bs).1._fZipBytes =
      t._fZipBytes + (bs.map fun b => bagIntD b.fields "_fZipBytes").sum := by
  induction bs with
  | nil => intro t _; simp [TTree.loop]
  | cons b bs ih =>
    intro t h
    obtain ⟨h1, h2, h3, h4⟩ := h b (List.mem_cons_self b bs)
    have e1 := isIntBag_lookup h1
    have e2 := isIntBag_lookup h2
    have e3 := isIntBag_lookup h3
    obtain ⟨lv, hlv⟩ : ∃ lv, lookupBag b.fields "_fLeaves" = .ok lv := by
      cases hl : lookupBag b.fields "_fLeaves" with
      | error e => rw [hl] at h4; simp [Except.isOk, Except.toBool] at h4
      | ok v => exact ⟨v, rfl⟩
    have hstep : TTree.loopStep t b =
      ({ t with
          _fEntries := t._fEntries + bagIntD b.fields "_fEntries",
          _fTotBytes := t._fTotBytes + bagIntD b.fields "_fTotBytes",
          _fZipBytes := t._fZipBytes + bagIntD b.fields "_fZipBytes",
          _fLeaves := t._fLeaves ++ [lv],
          _fBranches := t._fBranches ++ [b] }, none) := by
      simp [TTree.loopStep, e1, e2, e3, hlv, FVal.asInt, Except.bind]
    have iht := ih
      { t with
        _fEntries := t._fEntries + bagIntD b.fields "_fEntries",
        _fTotBytes := t._fTotBytes + bagIntD b.fields "_fTotBytes",
        _fZipBytes := t._fZipBytes + bagIntD b.fields "_fZipBytes",
        _fLeaves := t._fLeaves ++ [lv],
        _fBranches := t._fBranches ++ [b] }
      (fun b' hb => h b' (List.mem_cons_of_mem _ hb))
    simp only [TTree.loop, hstep]
    refine ⟨?_, ?_, ?_⟩
    · rw [iht.1]; simp; ring
    · rw [iht.2.1]; simp; ring
    · rw [iht.2.2]; simp; ring

/-- C4: for every set of branches attached to a tree, after `TTree.write` the
tree's recorded `_fEntries`, `_fTotBytes` and `_fZipBytes` each equal
the exact sum of the corresponding field over the branches' values as
they stand at the moment `write` is called (the branches quantified
here are the tree's current branch list, with arbitrary current field
bags, so mutation after construction is covered); the totals are
accumulated by the loop that runs immediately before serialization. -/
theorem C4_tree_totals (name title : PyStr) (nm : List Nat) (bs : List branch)
    (h : ∀ b ∈ bs,
      isIntBag b.fields "_fEntries" = true ∧
      isIntBag b.fields "_fTotBytes" = true ∧
      isIntBag b.fields "_fZipBytes" = true ∧
      (lookupBag b.fields "_fLeaves").isOk = true) :
    (TTree.write (TTree.init name title bs) nm).1._fEntries =
      (bs.map fun b => bagIntD b.fields "_fEntries").sum ∧
    (TTree.write (TTree.init name title bs) nm).1._fTotBytes =
      (bs.map fun b => bagIntD b.fields "_fTotBytes").sum ∧
    (TTree.write (TTree.init name title bs) nm).1._fZipBytes =
      (bs.map fun b => bagIntD b.fields "_fZipBytes").sum := by
  have hl := TTree.loop_totals bs (TTree.init name title bs) h
  simpa [TTree.write, TTree.init] using hl

/-- Witness for C4: a tree `"t"` holding one freshly constructed integer
branch `"x"` (all three branch totals are 0, so the recorded tree
totals equal the sums over that singleton list). -/
theorem C4_tree_totals_witness :
    (TTree.write (TTree.init (.str "t") (.str "t")
        [branch.init "int" (.str "x") (.str "x")]) (strBytes "t")).1._fEntries =
      ([branch.init "int" (.str "x") (.str "x")].map fun b =>
        bagIntD b.fields "_fEntries").sum ∧
    (TTree.write (TTree.init (.str "t") (.str "t")
        [branch.init "int" (.str "x") (.str "x")]) (strBytes "t")).1._fTotBytes =
      ([branch.init "int" (.str "x") (.str "x")].map fun b =>
        bagIntD b.fields "_fTotBytes").sum ∧
    (TTree.write (TTree.init (.str "t") (.str "t")
        [branch.init "int" (.str "x") (.str "x")]) (strBytes "t")).1._fZipBytes =
      ([branch.init "int" (.str "x") (.str "x")].map fun b =>
        bagIntD b.fields "_fZipBytes").sum :=
  C4_tree_totals (.str "t") (.str "t") (strBytes "t")
    [branch.init "int" (.str "x") (.str "x")] (by decide)
